import Mathlib

/-!
Verification of the `texty` rich-text widget (`src/textbox.rs`,
`src/textbox/update.rs`) against its specification.

The development shallowly embeds the widget's data model and operations:

* machine floats (`f32`) used by layout and scrolling are embedded as
  exact rationals (`ℚ`); `f32::INFINITY` (used as an unconstrained layout
  height) is embedded as `Option ℚ` with `none` standing for the infinite
  height;
* `std::time::Instant` timestamps are embedded as whole milliseconds (`ℕ`);
* the host-toolkit collaborators that the widget consumes through narrow
  contracts (layout limits, padding, the mouse click-counter, the text
  buffer) are embedded from those contracts, as documented on each
  definition.
-/

namespace Texty

/-! ## Geometry primitives (host toolkit `Size`, `Point`, `Rectangle`, `Padding`) -/

/-- A 2-D size with rational coordinates (embeds the toolkit's `Size<f32>`). -/
structure Size where
  width : ℚ
  height : ℚ
deriving DecidableEq

def Size.zero : Size := ⟨0, 0⟩

/-- A 2-D point with rational coordinates. -/
structure Point where
  x : ℚ
  y : ℚ
deriving DecidableEq

def Point.sub (a b : Point) : Point := ⟨a.x - b.x, a.y - b.y⟩

/-- Squared Euclidean distance between two points. -/
def Point.distSq (a b : Point) : ℚ := (a.x - b.x) ^ 2 + (a.y - b.y) ^ 2

/-- An axis-aligned rectangle (embeds the toolkit's `Rectangle<f32>`). -/
structure Rect where
  x : ℚ
  y : ℚ
  width : ℚ
  height : ℚ
deriving DecidableEq

def Rect.position (r : Rect) : Point := ⟨r.x, r.y⟩

/-- Membership test of a point in a rectangle (the toolkit's
`Rectangle::contains`: closed on the low edges, open on the high edges). -/
def Rect.contains (r : Rect) (p : Point) : Prop :=
  r.x ≤ p.x ∧ p.x < r.x + r.width ∧ r.y ≤ p.y ∧ p.y < r.y + r.height

instance (r : Rect) (p : Point) : Decidable (r.contains p) := by
  unfold Rect.contains; infer_instance

/-- Padding on the four sides of a box (the toolkit's `Padding`). -/
structure Padding where
  top : ℚ
  right : ℚ
  bottom : ℚ
  left : ℚ
deriving DecidableEq

def Padding.horizontal (p : Padding) : ℚ := p.left + p.right

def Padding.vertical (p : Padding) : ℚ := p.top + p.bottom

/-! ## Line endings and `Content::text` (src/textbox.rs lines 330–355) -/

/-- The line-terminator taxonomy of the text-buffer collaborator
(`text::editor::LineEnding`). -/
inductive LineEnding where
  | Lf
  | CrLf
  | Cr
  | LfCr
  | None
deriving DecidableEq

/-- The terminator string of each `LineEnding` (its `as_str`). -/
def LineEnding.asStr : LineEnding → String
  | .Lf => "\n"
  | .CrLf => "\r\n"
  | .Cr => "\r"
  | .LfCr => "\n\r"
  | .None => ""

/-- The default `LineEnding` (`LineEnding::default()` is `Lf`). -/
def LineEnding.dflt : LineEnding := .Lf

/-- One line of the buffer: its text and its own terminator
(`text::editor::Line`). -/
structure Line where
  text : String
  ending : LineEnding
deriving DecidableEq

/-- Embedding of `Content::text` (src/textbox.rs lines 338–355): walk the
lines with a peekable iterator; after every line that is followed by
another, push the line's own terminator, or the default terminator when the
line reports `LineEnding::None`; never push anything after the last line. -/
def contentText : List Line → String
  | [] => ""
  | [l] => l.text
  | l :: l' :: rest =>
      l.text
        ++ (if l.ending = LineEnding.None then LineEnding.dflt.asStr else l.ending.asStr)
        ++ contentText (l' :: rest)

/-- Modelled from the spec: the text-buffer collaborator's `with_text`
splitting (the buffer engine is external to this repository; the spec
specifies it only at the `line(index) → text + line-ending` boundary and
by the round-trip property of §8.1). Splitting scans the character list,
closing a line at each terminator (`\r\n` as one `CrLf`, else `\r` as `Cr`,
else `\n` as `Lf`) and recording that terminator as the closed line's
ending; the characters after the last terminator form a final line with
ending `LineEnding::None` (empty when the string ends with a terminator). -/
def splitChars (acc : List Char) : List Char → List Line
  | [] => [⟨String.mk acc.reverse, .None⟩]
  | '\r' :: '\n' :: rest => ⟨String.mk acc.reverse, .CrLf⟩ :: splitChars [] rest
  | '\r' :: rest => ⟨String.mk acc.reverse, .Cr⟩ :: splitChars [] rest
  | '\n' :: rest => ⟨String.mk acc.reverse, .Lf⟩ :: splitChars [] rest
  | c :: rest => splitChars (c :: acc) rest

/-- Modelled from the spec: `Content::with_text` as the list of buffer
lines obtained by splitting the initial string (see `splitChars`). -/
def withText (s : String) : List Line := splitChars [] s.data

/-! ## Focus/blink tracker (src/textbox.rs lines 409–434) -/

/-- The cursor-blink half period, in milliseconds
(`Focus::CURSOR_BLINK_INTERVAL_MILLIS`). -/
def cursorBlinkIntervalMillis : ℕ := 500

/-- The widget's transient focus record (`struct Focus`): the instants are
embedded as whole milliseconds. -/
structure Focus where
  updatedAt : ℕ
  nowMs : ℕ
  isWindowFocused : Bool
deriving DecidableEq

/-- `Focus::now()`: both timestamps set to the current instant, window
focused. -/
def Focus.atTime (t : ℕ) : Focus := ⟨t, t, true⟩

/-- Embedding of `Focus::is_cursor_visible` (src/textbox.rs lines 429–434):
visible iff the window is focused and the elapsed half-second count is
even. -/
def Focus.isCursorVisible (f : Focus) : Bool :=
  f.isWindowFocused && ((f.nowMs - f.updatedAt) / cursorBlinkIntervalMillis) % 2 = 0

/-! ## Keyboard model and the key-binding resolver (src/textbox/update.rs) -/

/-- The named keys the resolver inspects (`keyboard::key::Named`); all other
named keys are collapsed into `otherNamed`. -/
inductive NamedKey where
  | Enter
  | Backspace
  | Delete
  | Escape
  | ArrowLeft
  | ArrowRight
  | ArrowUp
  | ArrowDown
  | Home
  | End
  | PageUp
  | PageDown
  | otherNamed (code : ℕ)
deriving DecidableEq

/-- A keyboard key (`keyboard::Key`): named, a character string, or
unidentified. -/
inductive Key where
  | named (k : NamedKey)
  | character (s : String)
  | unidentified
deriving DecidableEq

/-- Keyboard modifier flags (`keyboard::Modifiers`). -/
structure Modifiers where
  shift : Bool
  ctrl : Bool
  alt : Bool
  logo : Bool
deriving DecidableEq

/-- `Modifiers::command()`: the platform command modifier — logo on macOS,
control elsewhere. The platform is passed explicitly as `macos`. -/
def Modifiers.command (m : Modifiers) (macos : Bool) : Bool :=
  if macos then m.logo else m.ctrl

/-- `Modifiers::macos_command()`: logo on macOS, never set elsewhere. -/
def Modifiers.macosCommand (m : Modifiers) (macos : Bool) : Bool :=
  macos && m.logo

/-- `Modifiers::jump()`: the word/page jump modifier — alt on macOS,
control elsewhere. -/
def Modifiers.jump (m : Modifiers) (macos : Bool) : Bool :=
  if macos then m.alt else m.ctrl

/-- The widget interaction status (`Status`, src/textbox.rs lines
1272–1282). -/
inductive Status where
  | Active
  | Hovered
  | Focused
  | Disabled
deriving DecidableEq

/-- Cursor motions of the buffer collaborator (`text::editor::Motion`). -/
inductive Motion where
  | Left
  | Right
  | Up
  | Down
  | WordLeft
  | WordRight
  | Home
  | End
  | PageUp
  | PageDown
  | DocumentStart
  | DocumentEnd
deriving DecidableEq

/-- `Motion::widen()` of the buffer collaborator: char motions widen to
word motions, line motions to document motions, and the rest stay put. -/
def Motion.widen : Motion → Motion
  | .Left => .WordLeft
  | .Right => .WordRight
  | .Home => .DocumentStart
  | .End => .DocumentEnd
  | m => m

/-- A key press handed to the binding resolver (`KeyPress`,
src/textbox/update.rs lines 9–19). -/
structure KeyPress where
  key : Key
  modifiers : Modifiers
  text : Option String
  status : Status
deriving DecidableEq

/-- A resolved editing command (`Binding<Message>`, src/textbox/update.rs
lines 22–56). -/
inductive Binding (M : Type) where
  | Unfocus
  | Submit
  | Copy
  | Cut
  | Paste
  | Move (m : Motion)
  | Select (m : Motion)
  | SelectWord
  | SelectLine
  | SelectAll
  | Insert (c : Char)
  | Enter
  | Backspace
  | Delete
  | Sequence (bs : List (Binding M))
  | Custom (msg : M)

/-- The navigation-key table (`fn motion`, src/textbox/update.rs lines
224–236). -/
def motionOf : NamedKey → Option Motion
  | .ArrowLeft => some .Left
  | .ArrowRight => some .Right
  | .ArrowUp => some .Up
  | .ArrowDown => some .Down
  | .Home => some .Home
  | .End => some .End
  | .PageUp => some .PageUp
  | .PageDown => some .PageDown
  | _ => none

/-- The DEL control character carried by some Delete key presses
(`"\u{7f}"`). -/
def delText : String := "\x7f"

/-- Rust's `char::is_control` (Unicode category Cc: C0 controls, DEL, and
C1 controls), used when picking the first printable character of a key
press's text. -/
def charIsControl (c : Char) : Bool :=
  c.val < 0x20 || (0x7f ≤ c.val && c.val ≤ 0x9f)

/-- Embedding of `Binding::from_key_press` (src/textbox/update.rs lines
60–122). The Rust `match` arms with guards fall through to the catch-all
arm when a guard fails, which the if-chain reproduces: a `Delete` press
whose text is neither absent nor DEL, or a command character without the
command modifier, reaches the trailing text/motion logic. -/
def Binding.fromKeyPress (macos : Bool) (kp : KeyPress) : Option (Binding M) :=
  if kp.status ≠ Status.Focused then
    none
  else if kp.key = .named .Enter then
    some .Enter
  else if kp.key = .named .Backspace then
    some .Backspace
  else if kp.key = .named .Delete ∧ (kp.text = none ∨ kp.text = some delText) then
    some .Delete
  else if kp.key = .named .Escape then
    some .Unfocus
  else if kp.key = .character "c" ∧ kp.modifiers.command macos then
    some .Copy
  else if kp.key = .character "x" ∧ kp.modifiers.command macos then
    some .Cut
  else if kp.key = .character "v" ∧ kp.modifiers.command macos ∧ ¬kp.modifiers.alt then
    some .Paste
  else if kp.key = .character "a" ∧ kp.modifiers.command macos then
    some .SelectAll
  else
    match kp.text with
    | some t =>
        match t.data.find? (fun c => !charIsControl c) with
        | some c => some (.Insert c)
        | none => none
    | none =>
        match kp.key with
        | .named nk =>
            (motionOf nk).map (fun m =>
              let m1 :=
                if kp.modifiers.macosCommand macos then
                  match m with
                  | .Left => Motion.Home
                  | .Right => Motion.End
                  | _ => m
                else m
              let m2 := if kp.modifiers.jump macos then m1.widen else m1
              if kp.modifiers.shift then Binding.Select m2 else Binding.Move m2)
        | _ => none

/-! ## Layout primitives of the host toolkit (spec §6: size limits with
min/max resolution, padding shrink/expand) and the widget's layout pass
(src/textbox.rs lines 451–506 and 518–607) -/

/-- A layout length request (the toolkit's `Length`). -/
inductive Length where
  | Fill
  | FillPortion (n : ℕ)
  | Shrink
  | Fixed (amount : ℚ)
deriving DecidableEq

/-- Rust `f32::clamp` for `lo ≤ hi`. -/
def qclamp (x lo hi : ℚ) : ℚ := max lo (min x hi)

/-- Layout size limits (the toolkit's `layout::Limits`). -/
structure Limits where
  minSize : Size
  maxSize : Size
deriving DecidableEq

/-- `Limits::width`: a `Fixed` width pins both bounds to the clamped
amount; `Fill`, `FillPortion` and `Shrink` leave the limits unchanged. -/
def Limits.withWidth (l : Limits) : Length → Limits
  | .Fixed amount =>
      let w := qclamp amount l.minSize.width l.maxSize.width
      ⟨⟨w, l.minSize.height⟩, ⟨w, l.maxSize.height⟩⟩
  | _ => l

/-- `Limits::height`: the vertical counterpart of `Limits::width`. -/
def Limits.withHeight (l : Limits) : Length → Limits
  | .Fixed amount =>
      let h := qclamp amount l.minSize.height l.maxSize.height
      ⟨⟨l.minSize.width, h⟩, ⟨l.maxSize.width, h⟩⟩
  | _ => l

/-- `Limits::shrink`: subtract a size from both bounds, flooring at zero. -/
def Limits.shrinkBy (l : Limits) (s : Size) : Limits :=
  ⟨⟨max 0 (l.minSize.width - s.width), max 0 (l.minSize.height - s.height)⟩,
    ⟨max 0 (l.maxSize.width - s.width), max 0 (l.maxSize.height - s.height)⟩⟩

/-- `Limits::resolve`: `Fill` takes the maximum, `Fixed` clamps the amount,
`Shrink` clamps the intrinsic content size. -/
def Limits.resolve (l : Limits) (width height : Length) (intrinsic : Size) : Size :=
  ⟨match width with
    | .Fill | .FillPortion _ => l.maxSize.width
    | .Fixed amount => qclamp amount l.minSize.width l.maxSize.width
    | .Shrink => qclamp intrinsic.width l.minSize.width l.maxSize.width,
    match height with
    | .Fill | .FillPortion _ => l.maxSize.height
    | .Fixed amount => qclamp amount l.minSize.height l.maxSize.height
    | .Shrink => qclamp intrinsic.height l.minSize.height l.maxSize.height⟩

/-- `Padding::fit(Size::ZERO, outer)`: cap every side at half the available
extent on its axis. -/
def Padding.fit (p : Padding) (inner outer : Size) : Padding :=
  let availW := max 0 (outer.width - inner.width)
  let availH := max 0 (outer.height - inner.height)
  ⟨min p.top (availH / 2), min p.right (availW / 2),
    min p.bottom (availH / 2), min p.left (availW / 2)⟩

/-- The `Size` a `Padding` occupies (`horizontal × vertical`), as used by
`limits.shrink(padding)`. -/
def Padding.toSize (p : Padding) : Size := ⟨p.horizontal, p.vertical⟩

/-- `Size::expand(padding)`: grow a size by the padding on both axes. -/
def Size.expand (s : Size) (p : Padding) : Size :=
  ⟨s.width + p.horizontal, s.height + p.vertical⟩

/-- A layout box the editor collaborator is laid out against: its height is
`none` when the widget measures with an unconstrained (`f32::INFINITY`)
height. -/
structure EdSize where
  width : ℚ
  height : Option ℚ
deriving DecidableEq

/-- The text-buffer collaborator as seen by layout (spec §6: `bounds`,
`min_bounds`, `update(resize+reshape)`): `bounds` is the box it was last
laid out against, and `measure` gives the minimum bounds its content needs
inside a given box (the reshaping itself is opaque; only the measured size
matters to the widget's layout). `update` stores the new box. -/
structure Editor where
  bounds : EdSize
  measure : EdSize → Size

/-- `Editor::update`: re-lay the buffer out against a new box. -/
def Editor.update (e : Editor) (s : EdSize) : Editor := { e with bounds := s }

/-- `Editor::min_bounds`: the minimum bounds of the content as last laid
out. -/
def Editor.minBounds (e : Editor) : Size := e.measure e.bounds

/-- Result of `layout_editor`: the mutated editor and the produced node
size. -/
structure EditorLayout where
  editor : Editor
  node : Size

/-- Embedding of `layout_editor` (src/textbox.rs lines 451–501): first
update the editor to an infinitely tall box at its current width and read
`min_bounds`; size the node to
`(limits.max().width + padding.horizontal(), max(limits.max().height,
min_bounds.height + padding.vertical()))`; finally update the editor to the
node's size. -/
def layoutEditor (e : Editor) (limits : Limits) (padding : Padding) : EditorLayout :=
  let e1 := e.update ⟨e.bounds.width, none⟩
  let minB := e1.minBounds
  let node : Size :=
    ⟨limits.maxSize.width + padding.horizontal,
      max limits.maxSize.height (minB.height + padding.vertical)⟩
  let e2 := e1.update ⟨node.width, some node.height⟩
  ⟨e2, node⟩

/-- Embedding of `layout::sized` as used by `layout_spans` (src/textbox.rs
lines 1192–1253): apply the width and height requests to the limits, measure
the intrinsic content size at the adjusted maximum (the cached paragraph's
`min_bounds`), and resolve. `spanMeasure` abstracts the paragraph-shaping
collaborator: it returns the paragraph's minimum bounds when shaped inside
a given box. -/
def layoutSized (limits : Limits) (width height : Length) (spanMeasure : Size → Size) : Size :=
  let l := (limits.withWidth width).withHeight height
  l.resolve width height (spanMeasure l.maxSize)

/-- Result of the widget's layout pass: the final widget bounds and the
three child-node sizes (span, background, editor), plus the re-laid-out
editor. -/
structure LayoutResult where
  finalBounds : Size
  spansSize : Size
  backgroundSize : Size
  editorNode : Size
  editor : Editor

/-- Embedding of `TextBox::layout` (src/textbox.rs lines 518–607): fit the
padding to the limits, derive the content limits by applying the widget's
width/height and shrinking by the fitted padding, lay out spans, background
and editor, and union: when focused the final bounds are the content-limit
maximum with its height raised to the editor node's height, expanded by the
fitted padding; when unfocused they are the limits resolved against the
span size plus padding. Note the editor is laid out with the widget's raw
padding (`self.padding`), while the final union uses the fitted padding. -/
def textboxLayout (focused : Bool) (limits : Limits) (width height : Length)
    (selfPadding : Padding) (spanMeasure : Size → Size) (e : Editor) : LayoutResult :=
  let padding := selfPadding.fit Size.zero limits.maxSize
  let contentLimits := ((limits.withWidth width).withHeight height).shrinkBy padding.toSize
  let spansSize := layoutSized contentLimits width height spanMeasure
  let backgroundSize := limits.resolve width height Size.zero
  let er := layoutEditor e contentLimits selfPadding
  let finalBounds :=
    if focused then
      (Size.mk contentLimits.maxSize.width
        (max contentLimits.maxSize.height er.node.height)).expand padding
    else
      limits.resolve (.Fixed (spansSize.width + padding.horizontal))
        (.Fixed (spansSize.height + padding.vertical)) Size.zero
  ⟨finalBounds, spansSize, backgroundSize, er.node, er.editor⟩

/-! ## Mouse gestures and the update classifier (src/textbox/update.rs
lines 125–222) -/

/-- The click multiplicity of the toolkit's click counter
(`mouse::click::Kind`). -/
inductive ClickKind where
  | Single
  | Double
  | Triple
deriving DecidableEq

/-- Modelled from the spec: the external click-counter's promotion of a
consecutive click (single → double → triple; a fourth consecutive click
counts as a double again). -/
def ClickKind.next : ClickKind → ClickKind
  | .Single => .Double
  | .Double => .Triple
  | .Triple => .Double

/-- Modelled from the spec: the external click-counter's record of a click
(`mouse::Click`): position, multiplicity, and time (milliseconds). All
clicks here are left-button, so the button field is omitted. -/
structure Click where
  position : Point
  kind : ClickKind
  timeMs : ℕ
deriving DecidableEq

/-- Modelled from the spec: the external click-counter's consecutiveness
test — the new press is within the distance threshold (6 logical pixels) of
the previous click and within the time threshold (300 ms) after it. -/
def Click.isConsecutive (c : Click) (pos : Point) (t : ℕ) : Prop :=
  c.position.distSq pos < 36 ∧ c.timeMs < t ∧ t - c.timeMs ≤ 300

instance (c : Click) (pos : Point) (t : ℕ) : Decidable (c.isConsecutive pos t) := by
  unfold Click.isConsecutive; infer_instance

/-- Modelled from the spec: `mouse::Click::new` — promote the previous
click's kind when the new press is consecutive with it, else start a new
single click. -/
def Click.new (pos : Point) (t : ℕ) : Option Click → Click
  | some prev => if prev.isConsecutive pos t then ⟨pos, prev.kind.next, t⟩ else ⟨pos, .Single, t⟩
  | none => ⟨pos, .Single, t⟩

/-- A wheel-scroll delta (`mouse::ScrollDelta`). -/
inductive ScrollDelta where
  | Lines (x y : ℚ)
  | Pixels (x y : ℚ)
deriving DecidableEq

/-- Mouse events the classifier inspects (`mouse::Event`); the press and
release of non-left buttons and all remaining mouse events fall into
`otherMouse`. The classifier reads the pointer position from the cursor
argument, so `cursorMoved` carries no payload here. -/
inductive MouseEvt where
  | buttonPressedLeft
  | buttonReleasedLeft
  | cursorMoved
  | wheelScrolled (delta : ScrollDelta)
  | otherMouse
deriving DecidableEq

/-- Window events the widget inspects (`window::Event`); `redrawRequested`
carries the frame's timestamp in milliseconds. -/
inductive WindowEvt where
  | focused
  | unfocused
  | redrawRequested (now : ℕ)
  | otherWindow
deriving DecidableEq

/-- A raw toolkit event (`Event`). -/
inductive Evt where
  | mouse (m : MouseEvt)
  | keyPressed (key : Key) (modifiers : Modifiers) (text : Option String)
  | window (w : WindowEvt)
  | otherEvt
deriving DecidableEq

/-- The widget's transient interaction state (`struct State`,
src/textbox.rs lines 397–407), restricted to the fields the update path
reads: the focus record, the click-counting memory, the drag memory, and
the fractional scroll residue. -/
structure WState where
  focus : Option Focus
  lastClick : Option Click
  dragClick : Option ClickKind
  restScroll : ℚ
deriving DecidableEq

/-- The pointer (`mouse::Cursor`): its position when available. -/
def positionIn (cursor : Option Point) (bounds : Rect) : Option Point :=
  cursor.bind fun p => if bounds.contains p then some (p.sub bounds.position) else none

/-- `mouse::Cursor::is_over`. -/
def isOver (cursor : Option Point) (bounds : Rect) : Bool :=
  match cursor with
  | some p => decide (bounds.contains p)
  | none => false

/-- The wheel-delta mapping of the classifier (src/textbox/update.rs lines
180–189): a nonzero line delta is amplified fourfold, floored at one line
in magnitude, and negated; a zero line delta maps to zero; a pixel delta
maps to `-y/4`. `f32::signum` returns `1` for positive and `-1` for
negative values (the zero case is unreachable under the guard, and `f32`
signum of zero is `1`). -/
def scrollAmount : ScrollDelta → ℚ
  | .Lines _ y =>
      if |y| > 0 then (if y < 0 then -1 else 1) * -(max (|y| * 4) 1) else 0
  | .Pixels _ y => -y / 4

/-- A classified interaction (`enum Update`, src/textbox/update.rs lines
125–131). -/
inductive Upd (M : Type) where
  | Click (c : Click)
  | Drag (p : Point)
  | Release
  | Scroll (q : ℚ)
  | WrapBinding (b : Binding M)

/-- Embedding of `Update::from_event` (src/textbox/update.rs lines
134–221). `now` supplies the ambient clock read by the click counter. -/
def Upd.fromEvent (macos : Bool) (now : ℕ) (e : Evt) (s : WState) (bounds : Rect)
    (padding : Padding) (cursor : Option Point)
    (keyBinding : Option (KeyPress → Option (Binding M))) : Option (Upd M) :=
  match e with
  | .mouse .buttonPressedLeft =>
      match positionIn cursor bounds with
      | some cp =>
          let cp := cp.sub ⟨padding.top, padding.left⟩
          some (.Click (Click.new cp now s.lastClick))
      | none =>
          if s.focus.isSome then some (.WrapBinding .Unfocus) else none
  | .mouse .buttonReleasedLeft => some .Release
  | .mouse .cursorMoved =>
      match s.dragClick with
      | some .Single =>
          (positionIn cursor bounds).map fun cp => .Drag (cp.sub ⟨padding.top, padding.left⟩)
      | _ => none
  | .mouse (.wheelScrolled delta) =>
      if isOver cursor bounds then some (.Scroll (scrollAmount delta)) else none
  | .keyPressed key modifiers text =>
      let status := if s.focus.isSome then Status.Focused else Status.Active
      let kp : KeyPress := ⟨key, modifiers, text, status⟩
      (match keyBinding with
        | some f => f kp
        | none => Binding.fromKeyPress macos kp).map .WrapBinding
  | _ => none

/-! ## The interaction controller: `TextBox::update` (src/textbox.rs lines
867–1114) -/

/-- Edits of the buffer collaborator (`text::editor::Edit`). -/
inductive EditAct where
  | Insert (c : Char)
  | Paste (s : String)
  | Enter
  | Backspace
  | Delete
deriving DecidableEq

/-- Buffer actions published through the on-action callback
(`text::editor::Action`). -/
inductive Action where
  | Move (m : Motion)
  | Select (m : Motion)
  | SelectWord
  | SelectLine
  | SelectAll
  | Click (p : Point)
  | Drag (p : Point)
  | Scroll (lines : ℤ)
  | Edit (e : EditAct)
deriving DecidableEq

/-- Side effects the controller queues through the shell and the clipboard:
message publications, event capture, redraw and layout-invalidation
requests, a timed redraw request, and clipboard writes. -/
inductive Effect (M : Type) where
  | publish (msg : M)
  | captureEvent
  | requestRedraw
  | invalidateLayout
  | requestRedrawAt (t : ℕ)
  | clipboardWrite (s : String)
deriving DecidableEq

/-- Truncation of a rational toward zero (Rust's `as i32` cast and the
integer part taken by `f32::fract`). -/
def qTrunc (q : ℚ) : ℤ := if 0 ≤ q then ⌊q⌋ else ⌈q⌉

/-- Rust's `f32::fract`: the value minus its truncation toward zero. -/
def qFract (q : ℚ) : ℚ := q - qTrunc q

/-- The read-only context of one `TextBox::update` call: the platform, the
ambient clock (milliseconds), the widget bounds and padding, the pointer,
the configured callbacks, the buffer's current selection, the clipboard
contents, and the editor's current layout-bounds height (`none` embeds
`f32::INFINITY`). -/
structure Ctx (M : Type) where
  macos : Bool
  now : ℕ
  bounds : Rect
  padding : Padding
  cursor : Option Point
  onEdit : Option (Action → M)
  keyBinding : Option (KeyPress → Option (Binding M))
  onSubmit : Option M
  onBlur : Option M
  selection : Option String
  clipboard : Option String
  editorBoundsHeight : Option ℚ

/-- The scroll gate of the `Update::Scroll` arm (src/textbox.rs lines
976–980): scrolling is ignored when the editor's layout bounds height is
effectively infinite (`bounds.height >= i32::MAX as f32`; `i32::MAX`
rounds to `2147483648` as an `f32`). -/
def scrollGateClosed : Option ℚ → Bool
  | none => true
  | some h => decide (h ≥ 2147483648)

/-- One step of `apply_binding`'s `publish_if_focused` closure
(src/textbox.rs lines 1005–1012): when focused, publish the action through
the on-action callback, re-enter focus (resetting the blink clock to now),
and request a redraw. -/
def publishIfFocused (ctx : Ctx M) (f : Action → M) (a : Action) (s : WState) :
    WState × List (Effect M) :=
  if s.focus.isSome then
    ({ s with focus := some (Focus.atTime ctx.now) }, [.publish (f a), .requestRedraw])
  else (s, [])

mutual

/-- Embedding of `apply_binding` (src/textbox.rs lines 990–1096). -/
def applyBinding (ctx : Ctx M) (f : Action → M) : Binding M → WState → WState × List (Effect M)
  | .Unfocus, s =>
      if s.focus.isSome then
        ({ s with focus := none, dragClick := none },
          (ctx.onBlur.map Effect.publish).toList ++ [.requestRedraw])
      else (s, [])
  | .Copy, s =>
      match ctx.selection with
      | some sel => (s, [.clipboardWrite sel])
      | none => (s, [])
  | .Cut, s =>
      match ctx.selection with
      | some sel =>
          let (s', eff) := publishIfFocused ctx f (.Edit .Delete) s
          (s', .clipboardWrite sel :: eff)
      | none => (s, [])
  | .Paste, s =>
      match ctx.clipboard with
      | some contents => publishIfFocused ctx f (.Edit (.Paste contents)) s
      | none => (s, [])
  | .Move m, s => publishIfFocused ctx f (.Move m) s
  | .Select m, s => publishIfFocused ctx f (.Select m) s
  | .SelectWord, s => publishIfFocused ctx f .SelectWord s
  | .SelectLine, s => publishIfFocused ctx f .SelectLine s
  | .SelectAll, s => publishIfFocused ctx f .SelectAll s
  | .Insert c, s => publishIfFocused ctx f (.Edit (.Insert c)) s
  | .Enter, s => publishIfFocused ctx f (.Edit .Enter) s
  | .Submit, s =>
      if s.focus.isSome then
        ({ s with focus := none },
          (ctx.onSubmit.map Effect.publish).toList ++ [.invalidateLayout])
      else (s, [])
  | .Backspace, s =>
      let (s', eff) := publishIfFocused ctx f (.Edit .Backspace) s
      (s', eff ++ [.requestRedraw])
  | .Delete, s =>
      let (s', eff) := publishIfFocused ctx f (.Edit .Delete) s
      (s', eff ++ [.requestRedraw])
  | .Sequence bs, s => applyBindingList ctx f bs s
  | .Custom m, s => (s, [.publish m, .requestRedraw])

/-- The recursion of `Binding::Sequence`: apply each sub-binding in order,
threading the state and accumulating the effects. -/
def applyBindingList (ctx : Ctx M) (f : Action → M) :
    List (Binding M) → WState → WState × List (Effect M)
  | [], s => (s, [])
  | b :: bs, s =>
      let (s', eff) := applyBinding ctx f b s
      let (s'', eff') := applyBindingList ctx f bs s'
      (s'', eff ++ eff')

end

/-- The window-event preamble of `TextBox::update` (src/textbox.rs lines
882–913), which runs before the on-action callback is even consulted:
window unfocus freezes the blink; window focus restarts the blink clock and
requests a redraw and a layout invalidation; a redraw tick advances the
blink clock and schedules the next redraw at the next blink boundary. -/
def windowPreamble (ctx : Ctx M) (e : Evt) (s : WState) : WState × List (Effect M) :=
  match e, s.focus with
  | .window .unfocused, some fc =>
      ({ s with focus := some { fc with isWindowFocused := false } }, [])
  | .window .focused, some fc =>
      ({ s with focus := some { fc with isWindowFocused := true, updatedAt := ctx.now } },
        [.requestRedraw, .invalidateLayout])
  | .window (.redrawRequested n), some fc =>
      if fc.isWindowFocused then
        let millisUntilRedraw :=
          cursorBlinkIntervalMillis - (n - fc.updatedAt) % cursorBlinkIntervalMillis
        ({ s with focus := some { fc with nowMs := n } },
          [.requestRedrawAt (n + millisUntilRedraw)])
      else (s, [])
  | _, _ => (s, [])

/-- The dispatch on the classified `Update` (src/textbox.rs lines
930–1113). -/
def handleUpdate (ctx : Ctx M) (f : Action → M) (u : Upd M) (s : WState) :
    WState × List (Effect M) :=
  match u with
  | .Click c =>
      match c.kind with
      | .Single =>
          let s' := { s with lastClick := some c, dragClick := some c.kind }
          if s'.focus.isSome then
            (s', [.captureEvent, .publish (f (.Click c.position)), .requestRedraw])
          else (s', [])
      | .Double =>
          let s' := { s with lastClick := some c, dragClick := some c.kind }
          if s'.focus.isSome then
            (s', [.publish (f .SelectWord), .captureEvent, .requestRedraw])
          else
            ({ s' with focus := some (Focus.atTime ctx.now) },
              [.invalidateLayout, .publish (f (.Click c.position)), .captureEvent])
      | .Triple =>
          if s.focus.isSome then
            (s, [.publish (f .SelectAll), .captureEvent, .requestRedraw])
          else
            ({ s with focus := some (Focus.atTime ctx.now) },
              [.invalidateLayout, .publish (f (.Click c.position)), .captureEvent])
  | .Drag p => (s, [.captureEvent, .publish (f (.Drag p))])
  | .Release => ({ s with dragClick := none }, [])
  | .Scroll q =>
      if scrollGateClosed ctx.editorBoundsHeight then (s, [])
      else
        let l := q + s.restScroll
        ({ s with restScroll := qFract l }, [.publish (f (.Scroll (qTrunc l)))])
  | .WrapBinding b =>
      let (s', eff) := applyBinding ctx f b s
      match s'.focus with
      | some fc => ({ s' with focus := some { fc with updatedAt := ctx.now } }, eff)
      | none => (s', eff)

/-- Embedding of `TextBox::update` (src/textbox.rs lines 867–1114): run the
window-event preamble, return immediately if no on-action callback is
configured, classify the event, and dispatch. -/
def widgetUpdate (ctx : Ctx M) (e : Evt) (s : WState) : WState × List (Effect M) :=
  let pre := windowPreamble ctx e s
  match ctx.onEdit with
  | none => pre
  | some f =>
      match Upd.fromEvent ctx.macos ctx.now e pre.1 ctx.bounds ctx.padding ctx.cursor
          ctx.keyBinding with
      | none => pre
      | some u =>
          let (s', eff) := handleUpdate ctx f u pre.1
          (s', pre.2 ++ eff)

/-- Iterated event handling: the state after `n` deliveries of the same
event (used to follow a stream of identical wheel events). -/
def iterUpdate (ctx : Ctx M) (e : Evt) (s : WState) : ℕ → WState
  | 0 => s
  | n + 1 => (widgetUpdate ctx e (iterUpdate ctx e s n)).1

/-! ## Helper lemmas -/

theorem string_ext {a b : String} (h : a.data = b.data) : a = b := by
  cases a; cases b; exact congrArg String.mk h

theorem splitChars_ne_nil (acc cs : List Char) : splitChars acc cs ≠ [] := by
  induction acc, cs using splitChars.induct <;> simp_all [splitChars]

theorem contentText_cons (l : Line) (rest : List Line) (h : rest ≠ []) :
    contentText (l :: rest) =
      l.text ++ (if l.ending = LineEnding.None then LineEnding.dflt.asStr else l.ending.asStr)
        ++ contentText rest := by
  cases rest with
  | nil => exact absurd rfl h
  | cons a as => rfl

theorem contentText_splitChars (acc cs : List Char) :
    (contentText (splitChars acc cs)).data = acc.reverse ++ cs := by
  induction acc, cs using splitChars.induct with
  | case1 acc => simp [splitChars, contentText]
  | case2 acc rest ih =>
      rw [splitChars.eq_2, contentText_cons _ _ (splitChars_ne_nil _ _)]
      simp_all [LineEnding.asStr, String.data_append]
  | case3 acc rest h ih =>
      rw [splitChars.eq_3 _ _ h, contentText_cons _ _ (splitChars_ne_nil _ _)]
      simp_all [LineEnding.asStr, String.data_append]
  | case4 acc rest ih =>
      rw [splitChars.eq_4, contentText_cons _ _ (splitChars_ne_nil _ _)]
      simp_all [LineEnding.asStr, String.data_append]
  | case5 acc c rest h1 h2 h3 ih =>
      rw [splitChars.eq_5 _ _ _ h1 h2 h3]
      simp_all

/-! ## Claim theorems -/

/-- C1: `Content::text` concatenates the texts of the lines in order,
inserting after every line except the last that line's own ending string
when it is not `LineEnding::None` and the default line ending otherwise;
consequently `Content::with_text(s).text() == s` holds for every string
`s` (in particular when every non-last line carries an explicit terminator
and when the last line carries none), and a `LineEnding::None` on a
non-last line is normalized to the default separator. The splitting
performed by `with_text` is the spec-modelled buffer contract
(`splitChars`). -/
theorem C1_content_text_round_trip :
    (∀ l : Line, contentText [l] = l.text) ∧
    (∀ (l : Line) (rest : List Line), rest ≠ [] →
      contentText (l :: rest) =
        l.text ++ (if l.ending = LineEnding.None then LineEnding.dflt.asStr
          else l.ending.asStr) ++ contentText rest) ∧
    (∀ s : String, contentText (withText s) = s) ∧
    (∀ (l : Line) (rest : List Line), rest ≠ [] → l.ending = LineEnding.None →
      contentText (l :: rest) = l.text ++ LineEnding.dflt.asStr ++ contentText rest) := by
  refine ⟨fun l => rfl, ?_, ?_, ?_⟩
  · intro l rest h
    rw [contentText_cons l rest h]
  · intro s
    apply string_ext
    simpa [withText] using contentText_splitChars [] s.data
  · intro l rest h he
    rw [contentText_cons l rest h, he]
    simp

/-- C1 witness: the round trip at a string with mixed endings, and the
normalization of a `LineEnding::None` on a non-last line. -/
theorem C1_content_text_round_trip_witness :
    contentText (withText "a\r\nb\nc") = "a\r\nb\nc" ∧
    contentText [⟨"a", LineEnding.None⟩, ⟨"b", LineEnding.None⟩] =
      "a" ++ LineEnding.dflt.asStr ++ contentText [⟨"b", LineEnding.None⟩] :=
  ⟨C1_content_text_round_trip.2.2.1 "a\r\nb\nc",
    C1_content_text_round_trip.2.2.2 ⟨"a", .None⟩ [⟨"b", .None⟩] (by simp) rfl⟩

/-- C2 counterexample: the claim asserts cursor visibility at elapsed
999 ms and invisibility at 1499 ms, but `is_cursor_visible` computes
`(999 / 500) % 2 = 1` (invisible) and `(1499 / 500) % 2 = 0` (visible):
the claim's concrete samples contradict its own formula, which is the one
the code implements. -/
theorem C2_blink_claim_counterexample :
    (Focus.mk 0 999 true).isCursorVisible = false ∧
    (Focus.mk 0 1499 true).isCursorVisible = true := by
  decide

/-- C2 amended: the cursor is blink-visible iff the window is focused and
`(elapsed ms / 500) % 2 = 0`; it is visible at elapsed 0 ms and 1000–1499
ms, invisible at 500–999 ms (so in particular invisible at 999 ms and
visible at 1499 ms, correcting the claim's samples), visibility flips
exactly at every multiple of 500 ms, and the cursor is invisible for every
elapsed time whenever the window is unfocused. -/
theorem C2_blink_visibility :
    (∀ f : Focus, f.isCursorVisible = true ↔
      f.isWindowFocused = true ∧
        ((f.nowMs - f.updatedAt) / cursorBlinkIntervalMillis) % 2 = 0) ∧
    (Focus.mk 0 0 true).isCursorVisible = true ∧
    (Focus.mk 0 500 true).isCursorVisible = false ∧
    (Focus.mk 0 999 true).isCursorVisible = false ∧
    (Focus.mk 0 1000 true).isCursorVisible = true ∧
    (Focus.mk 0 1499 true).isCursorVisible = true ∧
    (∀ e : ℕ, 0 < e →
      ((Focus.mk 0 e true).isCursorVisible ≠ (Focus.mk 0 (e - 1) true).isCursorVisible ↔
        e % cursorBlinkIntervalMillis = 0)) ∧
    (∀ u n : ℕ, (Focus.mk u n false).isCursorVisible = false) := by
  refine ⟨?_, by decide, by decide, by decide, by decide, by decide, ?_, ?_⟩
  · intro f
    simp [Focus.isCursorVisible]
  · intro e he
    simp only [Focus.isCursorVisible, cursorBlinkIntervalMillis, Bool.true_and, ne_eq,
      decide_eq_decide]
    omega
  · intro u n
    simp [Focus.isCursorVisible]

/-- C2 witness: visibility flips between elapsed 999 ms and 1000 ms, a
multiple of 500 ms. -/
theorem C2_blink_visibility_witness :
    (Focus.mk 0 1000 true).isCursorVisible ≠ (Focus.mk 0 999 true).isCursorVisible :=
  (C2_blink_visibility.2.2.2.2.2.2.1 1000 (by decide)).mpr (by decide)

/-- C3: in a focused layout pass the final widget bounds are the
content-limit width by the maximum of the content-limit height and the
editor node's height, expanded by the (fitted) padding; in an unfocused
pass they are the limits resolved against the span size plus padding; and
when the editor node is at least as tall as the content limit, the focused
height is exactly the editor node's height plus the vertical padding (the
widget grows to fit the live editor). -/
theorem C3_layout_final_bounds :
    ∀ (limits : Limits) (width height : Length) (selfPadding : Padding)
      (spanMeasure : Size → Size) (e : Editor) (padding : Padding) (contentLimits : Limits),
      padding = selfPadding.fit Size.zero limits.maxSize →
      contentLimits = ((limits.withWidth width).withHeight height).shrinkBy padding.toSize →
      ((textboxLayout true limits width height selfPadding spanMeasure e).finalBounds =
        (Size.mk contentLimits.maxSize.width
          (max contentLimits.maxSize.height
            (textboxLayout true limits width height selfPadding spanMeasure e).editorNode.height)).expand
          padding) ∧
      ((textboxLayout false limits width height selfPadding spanMeasure e).finalBounds =
        limits.resolve
          (.Fixed ((textboxLayout false limits width height selfPadding spanMeasure e).spansSize.width +
            padding.horizontal))
          (.Fixed ((textboxLayout false limits width height selfPadding spanMeasure e).spansSize.height +
            padding.vertical)) Size.zero) ∧
      (contentLimits.maxSize.height ≤
          (textboxLayout true limits width height selfPadding spanMeasure e).editorNode.height →
        (textboxLayout true limits width height selfPadding spanMeasure e).finalBounds.height =
          (textboxLayout true limits width height selfPadding spanMeasure e).editorNode.height +
            padding.vertical) := by
  intro limits width height selfPadding spanMeasure e padding contentLimits hp hcl
  subst hp
  subst hcl
  refine ⟨rfl, rfl, fun hgrow => ?_⟩
  have h1 : (textboxLayout true limits width height selfPadding spanMeasure e).finalBounds.height =
      max (((limits.withWidth width).withHeight height).shrinkBy
          (selfPadding.fit Size.zero limits.maxSize).toSize).maxSize.height
        (textboxLayout true limits width height selfPadding spanMeasure e).editorNode.height +
        (selfPadding.fit Size.zero limits.maxSize).vertical := rfl
  rw [h1, max_eq_right hgrow]

/-- C3 witness: a focused pass where the editor's natural height (200)
exceeds the content-limit height (40): the final height is the editor
node's height plus the vertical padding. -/
theorem C3_layout_final_bounds_witness :
    (textboxLayout true ⟨⟨0, 0⟩, ⟨100, 50⟩⟩ .Fill .Shrink ⟨5, 5, 5, 5⟩ (fun _ => ⟨20, 10⟩)
        ⟨⟨0, none⟩, fun _ => ⟨30, 200⟩⟩).finalBounds.height =
      (textboxLayout true ⟨⟨0, 0⟩, ⟨100, 50⟩⟩ .Fill .Shrink ⟨5, 5, 5, 5⟩ (fun _ => ⟨20, 10⟩)
          ⟨⟨0, none⟩, fun _ => ⟨30, 200⟩⟩).editorNode.height +
        ((Padding.mk 5 5 5 5).fit Size.zero (Size.mk 100 50)).vertical :=
  (C3_layout_final_bounds ⟨⟨0, 0⟩, ⟨100, 50⟩⟩ .Fill .Shrink ⟨5, 5, 5, 5⟩ (fun _ => ⟨20, 10⟩)
      ⟨⟨0, none⟩, fun _ => ⟨30, 200⟩⟩ _ _ rfl rfl).2.2
    (by norm_num [textboxLayout, layoutEditor, Limits.withWidth, Limits.withHeight,
      Limits.shrinkBy, Padding.fit, Padding.toSize, Padding.horizontal, Padding.vertical,
      Editor.update, Editor.minBounds, Size.zero])

/-- C9 counterexample: the claim says the editor node's width is the
maximum of the limits' maximum width and the natural minimum width plus
horizontal padding, but `layout_editor` computes
`limits.max().width + padding.horizontal()`: with maximum width 100,
horizontal padding 10 and natural minimum width 0, the code produces 110
while the claim's formula produces 100. -/
theorem C9_editor_node_counterexample :
    (layoutEditor ⟨⟨7, none⟩, fun _ => Size.mk 0 0⟩ ⟨⟨0, 0⟩, ⟨100, 50⟩⟩ ⟨5, 5, 5, 5⟩).node.width ≠
      max ((⟨⟨0, 0⟩, ⟨100, 50⟩⟩ : Limits)).maxSize.width
        (((fun _ => Size.mk 0 0 : EdSize → Size) ⟨7, none⟩).width +
          (⟨5, 5, 5, 5⟩ : Padding).horizontal) := by
  norm_num [layoutEditor, Editor.update, Editor.minBounds, Padding.horizontal]

/-- C9 amended: the editor layout node's width is the limits' maximum
width plus the horizontal padding (not a componentwise maximum), its
height is the maximum of the limits' maximum height and the natural
minimum height plus vertical padding, the natural minimum size is measured
with an unconstrained (infinite) height at the editor's current width, and
the editor is then re-laid-out at the final node size. -/
theorem C9_layout_editor :
    ∀ (e : Editor) (limits : Limits) (padding : Padding),
      (layoutEditor e limits padding).node =
        ⟨limits.maxSize.width + padding.horizontal,
          max limits.maxSize.height
            ((e.measure ⟨e.bounds.width, none⟩).height + padding.vertical)⟩ ∧
      (layoutEditor e limits padding).editor.bounds =
        ⟨(layoutEditor e limits padding).node.width,
          some (layoutEditor e limits padding).node.height⟩ ∧
      (layoutEditor e limits padding).editor.measure = e.measure :=
  fun _ _ _ => ⟨rfl, rfl, rfl⟩

/-- C4: `Binding::from_key_press` returns none for every key press whose
status is not `Focused`; and while focused it maps Escape to `Unfocus`
(any modifiers, any text payload), platform-command plus the character
`c` to `Copy` (any text payload), and a shifted left arrow without the
macOS line-bound command modifier and without the jump modifier to
`Select(Motion::Left)`. -/
theorem C4_key_binding_resolution (M : Type) :
    (∀ (macos : Bool) (kp : KeyPress), kp.status ≠ Status.Focused →
      Binding.fromKeyPress (M := M) macos kp = none) ∧
    (∀ (macos : Bool) (mods : Modifiers) (text : Option String),
      Binding.fromKeyPress (M := M) macos ⟨.named .Escape, mods, text, .Focused⟩ =
        some .Unfocus) ∧
    (∀ (macos : Bool) (mods : Modifiers) (text : Option String),
      mods.command macos = true →
      Binding.fromKeyPress (M := M) macos ⟨.character "c", mods, text, .Focused⟩ =
        some .Copy) ∧
    (∀ (macos : Bool) (mods : Modifiers),
      mods.shift = true → mods.macosCommand macos = false → mods.jump macos = false →
      Binding.fromKeyPress (M := M) macos ⟨.named .ArrowLeft, mods, none, .Focused⟩ =
        some (.Select .Left)) := by
  refine ⟨?_, ?_, ?_, ?_⟩
  · intro macos kp h
    rw [Binding.fromKeyPress, if_pos h]
  · intro macos mods text
    simp [Binding.fromKeyPress]
  · intro macos mods text h
    simp [Binding.fromKeyPress, h]
  · intro macos mods hs hmc hj
    simp [Binding.fromKeyPress, hs, hmc, hj, motionOf]

/-- C4 witness: the four rules at concrete key presses (an Active-status
copy chord, Escape, command-c, and shift-left-arrow). -/
theorem C4_key_binding_resolution_witness :
    Binding.fromKeyPress (M := Unit) false
        ⟨.character "c", ⟨false, true, false, false⟩, some "c", .Active⟩ = none ∧
    Binding.fromKeyPress (M := Unit) false
        ⟨.named .Escape, ⟨false, false, false, false⟩, none, .Focused⟩ = some .Unfocus ∧
    Binding.fromKeyPress (M := Unit) true
        ⟨.character "c", ⟨false, false, false, true⟩, some "c", .Focused⟩ = some .Copy ∧
    Binding.fromKeyPress (M := Unit) false
        ⟨.named .ArrowLeft, ⟨true, false, false, false⟩, none, .Focused⟩ =
      some (.Select .Left) :=
  ⟨(C4_key_binding_resolution Unit).1 false _ (by decide),
    (C4_key_binding_resolution Unit).2.1 false ⟨false, false, false, false⟩ none,
    (C4_key_binding_resolution Unit).2.2.1 true ⟨false, false, false, true⟩ (some "c") rfl,
    (C4_key_binding_resolution Unit).2.2.2 false ⟨true, false, false, false⟩ rfl rfl rfl⟩

/-- C5: for a wheel-scroll event with the cursor over the widget bounds,
the classifier emits `Scroll(signum(y) * -(max(|y| * 4, 1)))` for a line
delta with nonzero `y` (the if-expression below is `f32::signum` on the
nonzero reals), `Scroll(0)` for a line delta with zero `y`, and
`Scroll(-y/4)` for a pixel delta. -/
theorem C5_wheel_scroll_classification (M : Type) :
    ∀ (macos : Bool) (now : ℕ) (s : WState) (bounds : Rect) (padding : Padding) (p : Point)
      (kb : Option (KeyPress → Option (Binding M))) (x y : ℚ),
      bounds.contains p →
      (y ≠ 0 →
        Upd.fromEvent macos now (.mouse (.wheelScrolled (.Lines x y))) s bounds padding
            (some p) kb =
          some (.Scroll ((if y < 0 then -1 else 1) * -(max (|y| * 4) 1)))) ∧
      (y = 0 →
        Upd.fromEvent macos now (.mouse (.wheelScrolled (.Lines x y))) s bounds padding
            (some p) kb =
          some (.Scroll 0)) ∧
      (Upd.fromEvent macos now (.mouse (.wheelScrolled (.Pixels x y))) s bounds padding
          (some p) kb =
        some (.Scroll (-y / 4))) := by
  intro macos now s bounds padding p kb x y hb
  refine ⟨fun hy => ?_, fun hy => ?_, ?_⟩
  · simp [Upd.fromEvent, isOver, hb, scrollAmount, abs_pos, hy]
  · simp [Upd.fromEvent, isOver, hb, scrollAmount, hy]
  · simp [Upd.fromEvent, isOver, hb, scrollAmount]

/-- C5 witness: a line delta of `y = 1/10` over the bounds maps to
`Scroll(-1)` (amplified fourfold to `2/5`, floored at one line, negated). -/
theorem C5_wheel_scroll_classification_witness :
    Upd.fromEvent (M := Unit) false 0 (.mouse (.wheelScrolled (.Lines 0 (1/10))))
        ⟨none, none, none, 0⟩ ⟨0, 0, 10, 10⟩ ⟨5, 5, 5, 5⟩ (some ⟨1, 1⟩) none =
      some (.Scroll (-1)) := by
  have h := (C5_wheel_scroll_classification Unit false 0 ⟨none, none, none, 0⟩ ⟨0, 0, 10, 10⟩
      ⟨5, 5, 5, 5⟩ ⟨1, 1⟩ none 0 (1/10) (by norm_num [Rect.contains])).1 (by norm_num)
  rw [h]
  have ha : |(1/10 : ℚ)| = 1/10 := abs_of_pos (by norm_num)
  norm_num [ha]

/-- C10: a left press inside the bounds and a cursor move during a
single-click drag carry the cursor position relative to the bounds minus
the vector `(padding.top, padding.left)`: the top padding is subtracted
from the x coordinate and the left padding from the y coordinate, so the
horizontal and vertical adjustments are swapped for asymmetric padding. -/
theorem C10_click_drag_padding_swap (M : Type) :
    ∀ (macos : Bool) (now : ℕ) (s : WState) (bounds : Rect) (padding : Padding) (p : Point)
      (kb : Option (KeyPress → Option (Binding M))),
      bounds.contains p →
      (Upd.fromEvent macos now (.mouse .buttonPressedLeft) s bounds padding (some p) kb =
        some (.Click (Click.new ((p.sub bounds.position).sub ⟨padding.top, padding.left⟩) now
          s.lastClick))) ∧
      (s.dragClick = some .Single →
        Upd.fromEvent macos now (.mouse .cursorMoved) s bounds padding (some p) kb =
          some (.Drag ((p.sub bounds.position).sub ⟨padding.top, padding.left⟩))) ∧
      ((p.sub bounds.position).sub ⟨padding.top, padding.left⟩).x =
        p.x - bounds.x - padding.top ∧
      ((p.sub bounds.position).sub ⟨padding.top, padding.left⟩).y =
        p.y - bounds.y - padding.left := by
  intro macos now s bounds padding p kb hb
  refine ⟨?_, fun hd => ?_, rfl, rfl⟩
  · simp [Upd.fromEvent, positionIn, hb]
  · simp [Upd.fromEvent, positionIn, hb, hd]

/-- C10 witness: with padding top 1 and left 2, a press at (3, 2) inside
bounds at the origin yields a click at (3 − 1, 2 − 2) = (2, 0): the top
padding was taken off x and the left padding off y. -/
theorem C10_click_drag_padding_swap_witness :
    Upd.fromEvent (M := Unit) false 7 (.mouse .buttonPressedLeft) ⟨none, none, none, 0⟩
        ⟨0, 0, 10, 10⟩ ⟨1, 0, 0, 2⟩ (some ⟨3, 2⟩) none =
      some (.Click ⟨⟨2, 0⟩, .Single, 7⟩) := by
  have h := (C10_click_drag_padding_swap Unit false 7 ⟨none, none, none, 0⟩ ⟨0, 0, 10, 10⟩
      ⟨1, 0, 0, 2⟩ ⟨3, 2⟩ none (by norm_num [Rect.contains])).1
  rw [h]
  norm_num [Click.new, Point.sub, Rect.position]

/-- C7 counterexample: with no on-action callback registered, a
window-focus event delivered to a focused widget still mutates the
transient focus record (blink clock reset) and still requests a redraw and
a layout invalidation, because the window-event preamble of
`TextBox::update` runs before the callback check: the widget is not
display-only for window events. -/
theorem C7_display_only_counterexample :
    (widgetUpdate (M := Unit)
        ⟨false, 100, ⟨0, 0, 10, 10⟩, ⟨5, 5, 5, 5⟩, none, none, none, none, none, none, none,
          some 20⟩
        (.window .focused) ⟨some (Focus.atTime 0), none, none, 0⟩).2 ≠ [] ∧
    (widgetUpdate (M := Unit)
        ⟨false, 100, ⟨0, 0, 10, 10⟩, ⟨5, 5, 5, 5⟩, none, none, none, none, none, none, none,
          some 20⟩
        (.window .focused) ⟨some (Focus.atTime 0), none, none, 0⟩).1 ≠
      ⟨some (Focus.atTime 0), none, none, 0⟩ := by
  constructor <;> simp [widgetUpdate, windowPreamble, Focus.atTime]

/-- C7 amended: when no on-action callback is registered, `TextBox::update`
degenerates to its window-event preamble — the classifier and all
click/drag/scroll/binding dispatch are skipped — so every non-window event
leaves the transient state untouched and queues no effect; window
focus/unfocus/redraw-tick events may still update the focus record and
request redraws or layout invalidation. -/
theorem C7_display_only (M : Type) :
    ∀ (ctx : Ctx M) (e : Evt) (s : WState), ctx.onEdit = none →
      widgetUpdate ctx e s = windowPreamble ctx e s ∧
      ((∀ w, e ≠ Evt.window w) → widgetUpdate ctx e s = (s, [])) := by
  intro ctx e s h
  have h1 : widgetUpdate ctx e s = windowPreamble ctx e s := by
    simp [widgetUpdate, h]
  refine ⟨h1, fun hw => ?_⟩
  rw [h1]
  obtain ⟨fo, lc, dc, rs⟩ := s
  cases e with
  | mouse m => cases fo <;> rfl
  | keyPressed k mods t => cases fo <;> rfl
  | window w => exact absurd rfl (hw w)
  | otherEvt => cases fo <;> rfl

/-- C7 witness: with no on-action callback, a left press leaves the state
unchanged and queues nothing. -/
theorem C7_display_only_witness :
    widgetUpdate (M := Unit)
        ⟨false, 100, ⟨0, 0, 10, 10⟩, ⟨5, 5, 5, 5⟩, some ⟨1, 1⟩, none, none, none, none, none,
          none, some 20⟩
        (.mouse .buttonPressedLeft) ⟨some (Focus.atTime 0), none, none, 0⟩ =
      (⟨some (Focus.atTime 0), none, none, 0⟩, []) :=
  (C7_display_only Unit _ _ _ rfl).2 (fun w => by simp)

theorem scroll_step {M : Type} (ctx : Ctx M) (f : Action → M) (x : ℚ) (p : Point) (s : WState)
    (hE : ctx.onEdit = some f) (hc : ctx.cursor = some p) (hb : ctx.bounds.contains p)
    (hg : scrollGateClosed ctx.editorBoundsHeight = false) (hs : s.restScroll = 0) :
    widgetUpdate ctx (.mouse (.wheelScrolled (.Lines x (1/10)))) s =
      (s, [.publish (f (.Scroll (-1)))]) := by
  obtain ⟨fo, lc, dc, rs⟩ := s
  simp only [WState.mk.injEq] at hs ⊢
  subst hs
  have hceil : ⌈(-1 : ℚ)⌉ = -1 := by
    simpa using Int.ceil_intCast (α := ℚ) (-1)
  have hq2 : qTrunc (-1 : ℚ) = -1 := by
    rw [qTrunc, if_neg (by norm_num)]
    exact hceil
  have hq1 : qFract (-1 : ℚ) = 0 := by
    rw [qFract, hq2]
    norm_num
  have hsa : scrollAmount (.Lines x (10⁻¹ : ℚ)) = -1 := by
    have ha : |(10⁻¹ : ℚ)| = 10⁻¹ := abs_of_pos (by norm_num)
    have ha' : |(1/10 : ℚ)| = 1/10 := abs_of_pos (by norm_num)
    norm_num [scrollAmount, ha, ha']
  simp [widgetUpdate, windowPreamble, Upd.fromEvent, isOver, hb, hc, hE, hsa,
    handleUpdate, hg, hq1, hq2]

/-- C6: delivering any number of wheel events with line-delta `y = 1/10`
while the scroll gate is open (the editor's layout-bounds height is
finite, i.e. below the `i32::MAX` sentinel) publishes on every event a
nonzero integer `Scroll` action — the classifier floors the amplified
delta at one whole line, so `±1` is emitted as soon as the accumulated
remainder plus the mapped delta reaches magnitude 1, which here happens
immediately — and after every emission the stored `partial_scroll`
remainder lies in `[0, 1)`. -/
theorem C6_scroll_accumulation (M : Type) :
    ∀ (ctx : Ctx M) (f : Action → M) (x : ℚ) (s0 : WState) (p : Point),
      ctx.onEdit = some f →
      ctx.cursor = some p →
      ctx.bounds.contains p →
      scrollGateClosed ctx.editorBoundsHeight = false →
      s0.restScroll = 0 →
      ∀ n : ℕ,
        (iterUpdate ctx (.mouse (.wheelScrolled (.Lines x (1/10)))) s0 n).restScroll = 0 ∧
        (0 ≤ (iterUpdate ctx (.mouse (.wheelScrolled (.Lines x (1/10)))) s0 n).restScroll ∧
          (iterUpdate ctx (.mouse (.wheelScrolled (.Lines x (1/10)))) s0 n).restScroll < 1) ∧
        (∃ k : ℤ, k ≠ 0 ∧
          (widgetUpdate ctx (.mouse (.wheelScrolled (.Lines x (1/10))))
            (iterUpdate ctx (.mouse (.wheelScrolled (.Lines x (1/10)))) s0 n)).2 =
            [.publish (f (.Scroll k))]) := by
  intro ctx f x s0 p hE hc hb hg hs0 n
  induction n with
  | zero =>
      refine ⟨hs0, ⟨by rw [iterUpdate, hs0], by rw [iterUpdate, hs0]; norm_num⟩, -1,
        by norm_num, ?_⟩
      rw [show iterUpdate ctx (.mouse (.wheelScrolled (.Lines x (1/10)))) s0 0 = s0 from rfl,
        scroll_step ctx f x p s0 hE hc hb hg hs0]
  | succ n ih =>
      obtain ⟨ih1, _, _⟩ := ih
      have hstep := scroll_step ctx f x p _ hE hc hb hg ih1
      have hIter : iterUpdate ctx (.mouse (.wheelScrolled (.Lines x (1/10)))) s0 (n + 1) =
          iterUpdate ctx (.mouse (.wheelScrolled (.Lines x (1/10)))) s0 n := by
        rw [iterUpdate, hstep]
      refine ⟨by rw [hIter]; exact ih1, ⟨by rw [hIter, ih1], by rw [hIter, ih1]; norm_num⟩,
        -1, by norm_num, ?_⟩
      rw [hIter, hstep]

/-- C6 witness: three wheel events with `y = 1/10` starting from a zero
remainder — the remainder stays zero and the third event again publishes a
nonzero integer scroll. -/
theorem C6_scroll_accumulation_witness :
    (iterUpdate (M := Action)
        ⟨false, 0, ⟨0, 0, 10, 10⟩, ⟨5, 5, 5, 5⟩, some ⟨1, 1⟩, some (fun a => a), none, none,
          none, none, none, some 20⟩
        (.mouse (.wheelScrolled (.Lines 0 (1/10)))) ⟨none, none, none, 0⟩ 3).restScroll = 0 ∧
    (0 ≤ (iterUpdate (M := Action)
        ⟨false, 0, ⟨0, 0, 10, 10⟩, ⟨5, 5, 5, 5⟩, some ⟨1, 1⟩, some (fun a => a), none, none,
          none, none, none, some 20⟩
        (.mouse (.wheelScrolled (.Lines 0 (1/10)))) ⟨none, none, none, 0⟩ 3).restScroll ∧
      (iterUpdate (M := Action)
        ⟨false, 0, ⟨0, 0, 10, 10⟩, ⟨5, 5, 5, 5⟩, some ⟨1, 1⟩, some (fun a => a), none, none,
          none, none, none, some 20⟩
        (.mouse (.wheelScrolled (.Lines 0 (1/10)))) ⟨none, none, none, 0⟩ 3).restScroll < 1) ∧
    (∃ k : ℤ, k ≠ 0 ∧
      (widgetUpdate (M := Action)
        ⟨false, 0, ⟨0, 0, 10, 10⟩, ⟨5, 5, 5, 5⟩, some ⟨1, 1⟩, some (fun a => a), none, none,
          none, none, none, some 20⟩
        (.mouse (.wheelScrolled (.Lines 0 (1/10))))
        (iterUpdate (M := Action)
          ⟨false, 0, ⟨0, 0, 10, 10⟩, ⟨5, 5, 5, 5⟩, some ⟨1, 1⟩, some (fun a => a), none, none,
            none, none, none, some 20⟩
          (.mouse (.wheelScrolled (.Lines 0 (1/10)))) ⟨none, none, none, 0⟩ 3)).2 =
        [.publish ((fun a => a) (Action.Scroll k))]) :=
  C6_scroll_accumulation Action
    ⟨false, 0, ⟨0, 0, 10, 10⟩, ⟨5, 5, 5, 5⟩, some ⟨1, 1⟩, some (fun a => a), none, none, none,
      none, none, some 20⟩
    (fun a => a) 0 ⟨none, none, none, 0⟩ ⟨1, 1⟩ rfl rfl (by norm_num [Rect.contains])
    (by norm_num [scrollGateClosed]) rfl 3

theorem press_eval {M : Type} (ctx : Ctx M) (f : Action → M) (s : WState) (p : Point)
    (hE : ctx.onEdit = some f) (hc : ctx.cursor = some p) (hb : ctx.bounds.contains p) :
    widgetUpdate ctx (.mouse .buttonPressedLeft) s =
      handleUpdate ctx f
        (.Click (Click.new ((p.sub ctx.bounds.position).sub ⟨ctx.padding.top, ctx.padding.left⟩)
          ctx.now s.lastClick)) s := by
  obtain ⟨fo, lc, dc, rs⟩ := s
  rcases hr : handleUpdate ctx f
      (.Click (Click.new ((p.sub ctx.bounds.position).sub ⟨ctx.padding.top, ctx.padding.left⟩)
        ctx.now lc)) ⟨fo, lc, dc, rs⟩ with ⟨s', eff⟩
  simp [widgetUpdate, windowPreamble, Upd.fromEvent, positionIn, hE, hc, hb, hr]

/-- C8: while the widget is already focused and an on-action callback is
registered, three consecutive left presses at the same position within the
click-counter's time and distance thresholds publish `Click(position)`,
then `SelectWord`, then `SelectAll`, in that order, each press capturing
the event and requesting a redraw. -/
theorem C8_triple_click (M : Type) :
    ∀ (ctx : Ctx M) (f : Action → M) (t1 t2 t3 : ℕ) (p adj : Point) (s0 : WState) (f0 : Focus),
      ctx.onEdit = some f → ctx.cursor = some p → ctx.bounds.contains p →
      adj = (p.sub ctx.bounds.position).sub ⟨ctx.padding.top, ctx.padding.left⟩ →
      s0.focus = some f0 → s0.lastClick = none →
      t1 < t2 → t2 - t1 ≤ 300 → t2 < t3 → t3 - t2 ≤ 300 →
      (widgetUpdate { ctx with now := t1 } (.mouse .buttonPressedLeft) s0).2 =
        [.captureEvent, .publish (f (.Click adj)), .requestRedraw] ∧
      (widgetUpdate { ctx with now := t2 } (.mouse .buttonPressedLeft)
          (widgetUpdate { ctx with now := t1 } (.mouse .buttonPressedLeft) s0).1).2 =
        [.publish (f .SelectWord), .captureEvent, .requestRedraw] ∧
      (widgetUpdate { ctx with now := t3 } (.mouse .buttonPressedLeft)
          (widgetUpdate { ctx with now := t2 } (.mouse .buttonPressedLeft)
            (widgetUpdate { ctx with now := t1 } (.mouse .buttonPressedLeft) s0).1).1).2 =
        [.publish (f .SelectAll), .captureEvent, .requestRedraw] := by
  intro ctx f t1 t2 t3 p adj s0 f0 hE hc hb hadj hfoc hlast h12 h12' h23 h23'
  have hdist : adj.distSq adj = 0 := by
    simp [Point.distSq]
  have hcons12 : (Click.mk adj .Single t1).isConsecutive adj t2 := by
    refine ⟨?_, h12, h12'⟩
    simp only [hdist]
    norm_num
  have hcons23 : (Click.mk adj .Double t2).isConsecutive adj t3 := by
    refine ⟨?_, h23, h23'⟩
    simp only [hdist]
    norm_num
  have e1 : widgetUpdate { ctx with now := t1 } (.mouse .buttonPressedLeft) s0 =
      ({ s0 with lastClick := some ⟨adj, .Single, t1⟩, dragClick := some .Single },
        [.captureEvent, .publish (f (.Click adj)), .requestRedraw]) := by
    rw [press_eval { ctx with now := t1 } f s0 p hE hc hb, hlast, ← hadj]
    simp [Click.new, handleUpdate, hfoc]
  have e2 : widgetUpdate { ctx with now := t2 } (.mouse .buttonPressedLeft)
      ({ s0 with lastClick := some ⟨adj, .Single, t1⟩, dragClick := some .Single }) =
      ({ s0 with lastClick := some ⟨adj, .Double, t2⟩, dragClick := some .Double },
        [.publish (f .SelectWord), .captureEvent, .requestRedraw]) := by
    rw [press_eval { ctx with now := t2 } f _ p hE hc hb, ← hadj]
    have hnew : Click.new adj t2 (some ⟨adj, .Single, t1⟩) = ⟨adj, .Double, t2⟩ := by
      rw [Click.new.eq_1, if_pos hcons12]
      rfl
    simp [hnew, handleUpdate, hfoc]
  have e3 : widgetUpdate { ctx with now := t3 } (.mouse .buttonPressedLeft)
      ({ s0 with lastClick := some ⟨adj, .Double, t2⟩, dragClick := some .Double }) =
      ({ s0 with lastClick := some ⟨adj, .Double, t2⟩, dragClick := some .Double },
        [.publish (f .SelectAll), .captureEvent, .requestRedraw]) := by
    rw [press_eval { ctx with now := t3 } f _ p hE hc hb, ← hadj]
    have hnew : Click.new adj t3 (some ⟨adj, .Double, t2⟩) = ⟨adj, .Triple, t3⟩ := by
      rw [Click.new.eq_1, if_pos hcons23]
      rfl
    simp [hnew, handleUpdate, hfoc]
  refine ⟨by rw [e1], by rw [e1, e2], by rw [e1, e2, e3]⟩

/-- C8 witness: three presses at (3, 2) at times 10, 200, 400 ms inside
bounds at the origin, widget already focused: the three published actions
are `Click`, `SelectWord`, `SelectAll`, each with capture and redraw. -/
theorem C8_triple_click_witness :
    (widgetUpdate (M := Action)
        ⟨false, 10, ⟨0, 0, 10, 10⟩, ⟨1, 0, 0, 2⟩, some ⟨3, 2⟩, some (fun a => a), none, none,
          none, none, none, some 20⟩
        (.mouse .buttonPressedLeft) ⟨some (Focus.atTime 0), none, none, 0⟩).2 =
      [.captureEvent, .publish (Action.Click ⟨2, 0⟩), .requestRedraw] ∧
    (widgetUpdate (M := Action)
        ⟨false, 200, ⟨0, 0, 10, 10⟩, ⟨1, 0, 0, 2⟩, some ⟨3, 2⟩, some (fun a => a), none, none,
          none, none, none, some 20⟩
        (.mouse .buttonPressedLeft)
        (widgetUpdate (M := Action)
          ⟨false, 10, ⟨0, 0, 10, 10⟩, ⟨1, 0, 0, 2⟩, some ⟨3, 2⟩, some (fun a => a), none, none,
            none, none, none, some 20⟩
          (.mouse .buttonPressedLeft) ⟨some (Focus.atTime 0), none, none, 0⟩).1).2 =
      [.publish Action.SelectWord, .captureEvent, .requestRedraw] ∧
    (widgetUpdate (M := Action)
        ⟨false, 400, ⟨0, 0, 10, 10⟩, ⟨1, 0, 0, 2⟩, some ⟨3, 2⟩, some (fun a => a), none, none,
          none, none, none, some 20⟩
        (.mouse .buttonPressedLeft)
        (widgetUpdate (M := Action)
          ⟨false, 200, ⟨0, 0, 10, 10⟩, ⟨1, 0, 0, 2⟩, some ⟨3, 2⟩, some (fun a => a), none, none,
            none, none, none, some 20⟩
          (.mouse .buttonPressedLeft)
          (widgetUpdate (M := Action)
            ⟨false, 10, ⟨0, 0, 10, 10⟩, ⟨1, 0, 0, 2⟩, some ⟨3, 2⟩, some (fun a => a), none,
              none, none, none, none, some 20⟩
            (.mouse .buttonPressedLeft) ⟨some (Focus.atTime 0), none, none, 0⟩).1).1).2 =
      [.publish Action.SelectAll, .captureEvent, .requestRedraw] := by
  have h := C8_triple_click Action
    ⟨false, 10, ⟨0, 0, 10, 10⟩, ⟨1, 0, 0, 2⟩, some ⟨3, 2⟩, some (fun a => a), none, none, none,
      none, none, some 20⟩
    (fun a => a) 10 200 400 ⟨3, 2⟩ ⟨2, 0⟩ ⟨some (Focus.atTime 0), none, none, 0⟩
    (Focus.atTime 0) rfl rfl (by norm_num [Rect.contains])
    (by norm_num [Point.sub, Rect.position]) rfl rfl (by norm_num) (by norm_num) (by norm_num)
    (by norm_num)
  exact h

end Texty
